import Mathlib

/-!
Verification of the beforeafterify label layout and frame compositing engine.

Numbers that are JavaScript floats in the source are modelled as rationals
(`ℚ`): every operation the relevant code performs on them (addition,
subtraction, multiplication, division, `Math.min`, `Math.max`) is exact on
the inputs the claims quantify over, so the rational model is faithful
wherever a claim is decided.

Text measurement (`ctx.measureText`) is an external canvas capability; it is
modelled as an explicit function parameter so that theorems quantify over
every possible measurement behaviour.
-/

namespace BeforeAfterify

/-- `LabelConfig` from `src/types.ts` (server) and `src/client/app.ts`:
text, logical top-left position in full-resolution pixels, font size,
colours, background opacity in [0,1], and padding. -/
structure LabelConfig where
  text : String
  x : ℚ
  y : ℚ
  fontSize : ℚ
  color : String
  backgroundColor : String
  backgroundOpacity : ℚ
  padding : ℚ
  deriving DecidableEq

/-- `LabelBounds` from `src/client/app.ts`: a derived pixel rectangle. -/
@[ext]
structure LabelBounds where
  left : ℚ
  top : ℚ
  right : ℚ
  bottom : ℚ
  deriving DecidableEq

/-- The clamped x coordinate computed by `drawLabel`
(`src/unnamed/part_001` line 48):
`Math.max(0, Math.min(x, canvasWidth - textWidth - padding * 2))`. -/
def drawLabelClampedX (x textWidth padding canvasWidth : ℚ) : ℚ :=
  max 0 (min x (canvasWidth - textWidth - padding * 2))

/-- The clamped y coordinate computed by `drawLabel`
(`src/unnamed/part_001` line 49):
`Math.max(0, Math.min(y, canvasHeight - textHeight - padding * 2))`. -/
def drawLabelClampedY (y textHeight padding canvasHeight : ℚ) : ℚ :=
  max 0 (min y (canvasHeight - textHeight - padding * 2))

/-- One 2D-context drawing operation, recording the fill style and the
effective `globalAlpha` at the time of the call. -/
inductive DrawOp where
  | fillRect (x y w h : ℚ) (style : String) (alpha : ℚ)
  | fillText (text : String) (x y : ℚ) (style : String) (alpha : ℚ)
  | drawImage (dx dy : ℚ)
  deriving DecidableEq

/-- `drawLabel` from `src/unnamed/part_001` lines 31-60, as the list of
drawing operations it issues. `measureW fontSize text` models
`ctx.measureText(text).width` after `ctx.font` is set to
`bold fontSizepx sans-serif`. The context's `globalAlpha` is never touched
by `drawLabel`, so every operation runs at the canvas default alpha 1;
`backgroundOpacity` is not read (it is not even destructured on line 37). -/
def drawLabel (measureW : ℚ → String → ℚ) (label : LabelConfig)
    (canvasWidth canvasHeight : ℚ) : List DrawOp :=
  let textWidth := measureW label.fontSize label.text
  let textHeight := label.fontSize
  let clampedX := drawLabelClampedX label.x textWidth label.padding canvasWidth
  let clampedY := drawLabelClampedY label.y textHeight label.padding canvasHeight
  [DrawOp.fillRect (clampedX - label.padding) (clampedY - label.padding)
      (textWidth + label.padding * 2) (textHeight + label.padding * 2)
      label.backgroundColor 1,
   DrawOp.fillText label.text clampedX clampedY label.color 1]

/-- The background rectangle drawn by `drawLabel` (`src/unnamed/part_001`
line 53), expressed as `LabelBounds`:
`fillRect(clampedX - padding, clampedY - padding, textWidth + padding * 2,
textHeight + padding * 2)`. -/
def drawLabelBounds (measureW : ℚ → String → ℚ) (label : LabelConfig)
    (canvasWidth canvasHeight : ℚ) : LabelBounds :=
  let textWidth := measureW label.fontSize label.text
  let textHeight := label.fontSize
  let clampedX := drawLabelClampedX label.x textWidth label.padding canvasWidth
  let clampedY := drawLabelClampedY label.y textHeight label.padding canvasHeight
  { left := clampedX - label.padding
    top := clampedY - label.padding
    right := clampedX + textWidth + label.padding
    bottom := clampedY + textHeight + label.padding }

/-- C1: for every label config and surface, the layout clamp computes
`clampedX = max(0, min(x, surfaceWidth - textWidth - 2*padding))` and
`clampedY = max(0, min(y, surfaceHeight - textHeight - 2*padding))`; when
`surfaceWidth - textWidth - 2*padding < 0` (or the analogue in y) the
clamped coordinate is exactly 0, and the clamped coordinates are never
negative (NaN does not arise in the exact rational model). -/
theorem drawLabel_clamp_formula_and_degenerate
    (measureW : ℚ → String → ℚ) (label : LabelConfig) (W H : ℚ) :
    drawLabelClampedX label.x (measureW label.fontSize label.text) label.padding W
      = max 0 (min label.x (W - measureW label.fontSize label.text - 2 * label.padding)) ∧
    drawLabelClampedY label.y label.fontSize label.padding H
      = max 0 (min label.y (H - label.fontSize - 2 * label.padding)) ∧
    0 ≤ drawLabelClampedX label.x (measureW label.fontSize label.text) label.padding W ∧
    0 ≤ drawLabelClampedY label.y label.fontSize label.padding H ∧
    (W - measureW label.fontSize label.text - 2 * label.padding < 0 →
      drawLabelClampedX label.x (measureW label.fontSize label.text) label.padding W = 0) ∧
    (H - label.fontSize - 2 * label.padding < 0 →
      drawLabelClampedY label.y label.fontSize label.padding H = 0) := by
  refine ⟨by unfold drawLabelClampedX; ring_nf, by unfold drawLabelClampedY; ring_nf,
    le_max_left 0 _, le_max_left 0 _, ?_, ?_⟩
  · intro hdeg
    have hmin : min label.x (W - measureW label.fontSize label.text - label.padding * 2) ≤ 0 := by
      calc min label.x (W - measureW label.fontSize label.text - label.padding * 2)
          ≤ W - measureW label.fontSize label.text - label.padding * 2 := min_le_right _ _
        _ ≤ 0 := by linarith
    unfold drawLabelClampedX
    exact max_eq_left hmin
  · intro hdeg
    have hmin : min label.y (H - label.fontSize - label.padding * 2) ≤ 0 := by
      calc min label.y (H - label.fontSize - label.padding * 2)
          ≤ H - label.fontSize - label.padding * 2 := min_le_right _ _
        _ ≤ 0 := by linarith
    unfold drawLabelClampedY
    exact max_eq_left hmin

/-- Witness for `drawLabel_clamp_formula_and_degenerate`: the spec's overflow
scenario, a label at `(95, 95)` with font size 60 on a 100×100 surface, with
a measured text width of 200 so that both axes are degenerate. -/
theorem drawLabel_clamp_formula_and_degenerate_witness :
    (100 - (fun _ _ => (200 : ℚ)) (60 : ℚ) "wide" - 2 * 8 < 0 ∧
      drawLabelClampedX 95 ((fun _ _ => (200 : ℚ)) (60 : ℚ) "wide") 8 100 = 0) ∧
    (100 - 60 - 2 * 8 < 0 ∨ drawLabelClampedY 95 60 8 100 = 24) := by
  have h := drawLabel_clamp_formula_and_degenerate (fun _ _ => (200 : ℚ))
    { text := "wide", x := 95, y := 95, fontSize := 60, color := "w", backgroundColor := "b",
      backgroundOpacity := 0, padding := 8 } 100 100
  refine ⟨⟨by norm_num, h.2.2.2.2.1 (by norm_num)⟩, Or.inr ?_⟩
  unfold drawLabelClampedY
  norm_num

/-- A decoded raster as the `/api/generate` handler sees it after
`loadImage`: width and height in pixels (`src/unnamed/part_001` line 98). -/
structure ImageAsset where
  width : ℕ
  height : ℕ
  deriving DecidableEq

/-- The error responses the `/api/generate` handler can send with status 400
(`src/unnamed/part_001` lines 72-96). `dimensionMismatch` carries both
images' dimensions, matching the message
`Images must be the same size. Got w1xh1 and w2xh2`. -/
inductive GenError where
  | missingImages
  | invalidLabelConfig
  | dimensionMismatch (w1 h1 w2 h2 : ℕ)
  deriving DecidableEq

/-- The encoded output assembled on `src/unnamed/part_001` lines 113-121:
frame dimensions, the delay passed to `encoder.setDelay`, the loop count
passed to `encoder.setRepeat`, and the two frames (each modelled as the
drawing-operation trace that produced its pixels) in order. -/
structure GifOutput where
  width : ℕ
  height : ℕ
  delay : ℕ
  loopCount : ℕ
  frames : List (List DrawOp)
  deriving DecidableEq

/-- The `/api/generate` handler, `src/unnamed/part_001` lines 68-126.
`image1?`/`image2?` are `files.image1[0]`/`files.image2[0]` after decoding
(`none` = missing upload); `label1?`/`label2?` are the results of
`JSON.parse` on the label fields (`none` = parse threw, the handler's only
label validation); `delayField?` is `req.body.delay` as sent by the client —
the handler never reads it: `encoder.setDelay(500)` and `encoder.setRepeat(0)`
are hard-coded on lines 114-115. -/
def handleGenerate (measureW : ℚ → String → ℚ)
    (image1? image2? : Option ImageAsset)
    (label1? label2? : Option LabelConfig)
    (delayField? : Option ℕ) : Except GenError GifOutput :=
  match image1?, image2? with
  | some img1, some img2 =>
    match label1?, label2? with
    | some label1, some label2 =>
      if img1.width ≠ img2.width ∨ img1.height ≠ img2.height then
        Except.error (GenError.dimensionMismatch img1.width img1.height img2.width img2.height)
      else
        let width := img1.width
        let height := img1.height
        let frame1 := DrawOp.drawImage 0 0 ::
          drawLabel measureW label1 (width : ℚ) (height : ℚ)
        let frame2 := DrawOp.drawImage 0 0 ::
          drawLabel measureW label2 (width : ℚ) (height : ℚ)
        Except.ok { width := width, height := height, delay := 500, loopCount := 0,
                    frames := [frame1, frame2] }
    | _, _ => Except.error GenError.invalidLabelConfig
  | _, _ => Except.error GenError.missingImages

/-- C2: with both images and both labels supplied, the handler fails with
`DimensionMismatch` — carrying both images' dimensions — exactly when
`image1.width ≠ image2.width` or `image1.height ≠ image2.height`; being an
`Except.error`, the failure produces no output, and in the handler it occurs
before either frame is composited. -/
theorem handleGenerate_dimensionMismatch_iff
    (measureW : ℚ → String → ℚ) (img1 img2 : ImageAsset)
    (label1 label2 : LabelConfig) (delayField? : Option ℕ) :
    handleGenerate measureW (some img1) (some img2) (some label1) (some label2) delayField?
        = Except.error (GenError.dimensionMismatch img1.width img1.height img2.width img2.height)
      ↔ (img1.width ≠ img2.width ∨ img1.height ≠ img2.height) := by
  unfold handleGenerate
  by_cases h : img1.width ≠ img2.width ∨ img1.height ≠ img2.height
  · simp [h]
  · simp [h]

/-- C3: the claim that the encoded delay and loop count equal the values
supplied by the caller is false: for the end-to-end scenario (two 100×100
images, the default labels, the client's `state.delay = 1000` sent as the
`delay` field), the handler succeeds but encodes a delay of 500, not the
supplied 1000. -/
theorem handleGenerate_ignores_supplied_delay :
    ∃ out : GifOutput,
      handleGenerate (fun _ _ => 50)
          (some { width := 100, height := 100 }) (some { width := 100, height := 100 })
          (some { text := "before", x := 10, y := 10, fontSize := 20, color := "#ffffff",
                  backgroundColor := "#000000", backgroundOpacity := 0, padding := 4 })
          (some { text := "after", x := 10, y := 10, fontSize := 20, color := "#ffffff",
                  backgroundColor := "#000000", backgroundOpacity := 0, padding := 4 })
          (some 1000)
        = Except.ok out ∧ out.delay = 500 ∧ out.delay ≠ 1000 ∧ out.loopCount = 0 := by
  refine ⟨_, rfl, rfl, by norm_num, rfl⟩

/-- C7 counterexample: a request whose labels parse but carry a negative
font size and negative padding is not rejected with `InvalidLabelConfig`;
the handler proceeds to render and succeeds. -/
theorem handleGenerate_accepts_negative_label_fields :
    ∃ out : GifOutput,
      handleGenerate (fun _ _ => 50)
          (some { width := 100, height := 100 }) (some { width := 100, height := 100 })
          (some { text := "bad", x := 10, y := 10, fontSize := -5, color := "#ffffff",
                  backgroundColor := "#000000", backgroundOpacity := 0, padding := -3 })
          (some { text := "bad", x := 10, y := 10, fontSize := -5, color := "#ffffff",
                  backgroundColor := "#000000", backgroundOpacity := 0, padding := -3 })
          none
        = Except.ok out ∧ (-5 : ℚ) < 0 ∧ (-3 : ℚ) < 0 := by
  exact ⟨_, rfl, by norm_num, by norm_num⟩

/-- C7 amended: the handler reports `InvalidLabelConfig` exactly when both
images are present and at least one label field fails to `JSON.parse`; label
field values themselves (e.g. negative font size or padding) are never
validated, so rendering proceeds with whatever geometry the parsed labels
carry. -/
theorem handleGenerate_invalidLabelConfig_iff
    (measureW : ℚ → String → ℚ) (img1 img2 : ImageAsset)
    (label1? label2? : Option LabelConfig) (delayField? : Option ℕ) :
    handleGenerate measureW (some img1) (some img2) label1? label2? delayField?
        = Except.error GenError.invalidLabelConfig
      ↔ (label1? = none ∨ label2? = none) := by
  match label1?, label2? with
  | none, none => simp [handleGenerate]
  | none, some l2 => simp [handleGenerate]
  | some l1, none => simp [handleGenerate]
  | some l1, some l2 =>
    simp only [handleGenerate]
    by_cases h : img1.width ≠ img2.width ∨ img1.height ≠ img2.height
    · simp [h]
    · simp [h]

/-- The subset of canvas `TextMetrics` read by `src/client/app.ts`:
`width`, `actualBoundingBoxAscent`, `actualBoundingBoxDescent`. -/
structure TextMetrics where
  width : ℚ
  actualBoundingBoxAscent : ℚ
  actualBoundingBoxDescent : ℚ
  deriving DecidableEq

/-- `getLabelBounds` from `src/client/app.ts` lines 74-93: the preview-path
layout. `measure fontSize text` models `ctx.measureText(text)` after
`ctx.font` is set to `fontSizepx OperatorMonoBold`. Note there is no
clamping here: the candidate `(x*scale, y*scale)` is used as-is. -/
def getLabelBounds (measure : ℚ → String → TextMetrics) (label : LabelConfig)
    (scale : ℚ) : LabelBounds :=
  let m := measure (label.fontSize * scale) label.text
  let tw := m.width
  let th := m.actualBoundingBoxAscent + m.actualBoundingBoxDescent
  let p := label.padding * scale
  let lx := label.x * scale
  let ly := label.y * scale
  { left := lx - p, top := ly - p, right := lx + tw + p, bottom := ly + th + p }

/-- `hitTest` from `src/client/app.ts` lines 95-97:
`mx >= b.left && mx <= b.right && my >= b.top && my <= b.bottom`. -/
def hitTest (mx my : ℚ) (b : LabelBounds) : Bool :=
  decide (b.left ≤ mx) && decide (mx ≤ b.right) &&
    decide (b.top ≤ my) && decide (my ≤ b.bottom)

/-- Which of the two previews/labels an event handler is bound to
(`which: 1 | 2` in `src/client/app.ts`). -/
inductive Which where
  | one
  | two
  deriving DecidableEq

/-- `DragState` from `src/client/app.ts` lines 19-23: the dragged label and
the pointer-to-label offset in canvas pixels captured at grab time. -/
structure DragState where
  which : Which
  offsetX : ℚ
  offsetY : ℚ
  deriving DecidableEq

/-- The mutable client state relevant to dragging (`state.label1`,
`state.label2`, `state.drag` in `src/client/app.ts` lines 39-64). -/
structure ClientState where
  label1 : LabelConfig
  label2 : LabelConfig
  drag : Option DragState
  deriving DecidableEq

/-- `getLabel` closure in `setupCanvas` (`src/client/app.ts` line 182):
`which === 1 ? state.label1 : state.label2`. -/
def labelOf (which : Which) (s : ClientState) : LabelConfig :=
  if which = Which.one then s.label1 else s.label2

/-- The `mousedown` handler of `setupCanvas` (`src/client/app.ts` lines
187-205): hit-test the pointer against the label's preview bounds at the
current scale; on a hit, create the drag session with
`offsetX = mx - label.x * scale`, `offsetY = my - label.y * scale`.
Cursor changes are presentation-only and not part of the state model. -/
def onMouseDown (measure : ℚ → String → TextMetrics) (which : Which)
    (mx my scale : ℚ) (s : ClientState) : ClientState :=
  let label := labelOf which s
  let bounds := getLabelBounds measure label scale
  if hitTest mx my bounds then
    { s with drag := some { which := which, offsetX := mx - label.x * scale,
                            offsetY := my - label.y * scale } }
  else s

/-- The `mousemove` handler of `setupCanvas` (`src/client/app.ts` lines
207-228): while a drag session for this canvas is active, recompute the
logical position `newX = (mx - offsetX) / scale`,
`newY = (my - offsetY) / scale` and write it into BOTH `state.label1` and
`state.label2` (lines 218-219). Without an active drag the handler only
updates the hover cursor, leaving the state unchanged. -/
def onMouseMove (which : Which) (mx my scale : ℚ) (s : ClientState) : ClientState :=
  match s.drag with
  | some d =>
    if d.which = which then
      let newX := (mx - d.offsetX) / scale
      let newY := (my - d.offsetY) / scale
      { s with label1 := { s.label1 with x := newX, y := newY }
               label2 := { s.label2 with x := newX, y := newY } }
    else s
  | none => s

/-- C9: for an active drag session with scale `s ≠ 0`, grabbing at pointer
position `(mx, my)` over a label at logical `(x0, y0)` and moving the
pointer to `(mx + dx, my + dy)` sets the dragged label's logical position to
exactly `(x0 + dx/s, y0 + dy/s)`. -/
theorem drag_moves_label_by_pointer_delta_over_scale
    (measure : ℚ → String → TextMetrics) (which : Which)
    (mx my dx dy scale : ℚ) (s : ClientState)
    (hscale : scale ≠ 0)
    (hhit : hitTest mx my (getLabelBounds measure (labelOf which s) scale) = true) :
    (labelOf which
        (onMouseMove which (mx + dx) (my + dy) scale
          (onMouseDown measure which mx my scale s))).x
        = (labelOf which s).x + dx / scale ∧
    (labelOf which
        (onMouseMove which (mx + dx) (my + dy) scale
          (onMouseDown measure which mx my scale s))).y
        = (labelOf which s).y + dy / scale := by
  simp only [onMouseDown, hhit, if_true, onMouseMove, if_pos rfl]
  cases which <;>
    refine ⟨?_, ?_⟩ <;>
    · simp [labelOf]
      try field_simp
      try ring

/-- A linear text-measurement model: width, ascent and descent all scale
with the font size (width = font size, ascent = font size, descent = 0),
used to instantiate the abstract canvas measurement in concrete scenarios. -/
def linearMetrics (fontSize : ℚ) (_text : String) : TextMetrics :=
  ⟨fontSize, fontSize, 0⟩

/-- The initial `state.label1` of `src/client/app.ts` lines 43-52. -/
def clientLabel1Default : LabelConfig :=
  ⟨"before", 10, 10, 90, "#ffffff", "#000000", 0, 8⟩

/-- The initial `state.label2` of `src/client/app.ts` lines 53-62. -/
def clientLabel2Default : LabelConfig :=
  ⟨"after", 10, 10, 90, "#ffffff", "#000000", 0, 8⟩

/-- The initial client state of `src/client/app.ts` lines 39-64 (labels at
their defaults, no drag session). -/
def clientStateDefault : ClientState :=
  ⟨clientLabel1Default, clientLabel2Default, none⟩

/-- Witness for `drag_moves_label_by_pointer_delta_over_scale`: grab the
default label (at logical `(10, 10)`, preview scale `1/2`, padded box around
`(5, 5)`) at pointer `(6, 6)`, move by `(3, 4)`: the label lands at
`(10 + 3/(1/2), 10 + 4/(1/2)) = (16, 18)`. -/
theorem drag_moves_label_by_pointer_delta_over_scale_witness :
    (labelOf Which.one
        (onMouseMove Which.one (6 + 3) (6 + 4) (1/2)
          (onMouseDown linearMetrics Which.one 6 6 (1/2) clientStateDefault))).x
      = 10 + 3 / (1/2) := by
  have h := drag_moves_label_by_pointer_delta_over_scale linearMetrics
    Which.one 6 6 3 4 (1/2) clientStateDefault (by norm_num)
    (by norm_num [hitTest, getLabelBounds, labelOf, clientStateDefault,
      clientLabel1Default, linearMetrics])
  rw [h.1]
  norm_num [labelOf, clientStateDefault, clientLabel1Default]

/-- C10: every drag-move in `src/client/app.ts` writes the same new `(x, y)`
into both `label1` and `label2`, so after any drag-move the two labels'
logical positions coincide, regardless of which label was grabbed. -/
theorem dragMove_synchronizes_labels
    (which : Which) (mx my scale : ℚ) (s : ClientState) (d : DragState)
    (hdrag : s.drag = some d) (hwhich : d.which = which) :
    (onMouseMove which mx my scale s).label1.x
        = (onMouseMove which mx my scale s).label2.x ∧
    (onMouseMove which mx my scale s).label1.y
        = (onMouseMove which mx my scale s).label2.y := by
  unfold onMouseMove
  rw [hdrag]
  simp [hwhich]

/-- A client state mid-drag of label 2, with the two labels at distinct
positions `(1, 2)` and `(3, 4)`. -/
def midDragState : ClientState :=
  ⟨⟨"before", 1, 2, 90, "#ffffff", "#000000", 0, 8⟩,
   ⟨"after", 3, 4, 90, "#ffffff", "#000000", 0, 8⟩,
   some ⟨Which.two, 5, 6⟩⟩

/-- Witness for `dragMove_synchronizes_labels`: a concrete drag-move of
label 2 over labels that start at different positions leaves both labels at
the same x coordinate. -/
theorem dragMove_synchronizes_labels_witness :
    (onMouseMove Which.two 30 40 1 midDragState).label1.x
      = (onMouseMove Which.two 30 40 1 midDragState).label2.x := by
  exact (dragMove_synchronizes_labels Which.two 30 40 1 midDragState
    ⟨Which.two, 5, 6⟩ rfl rfl).1

/-- A label at logical `x = 1000` on a 100-pixel-wide surface, used to make
the server-side clamp active. -/
def farRightLabel : LabelConfig :=
  ⟨"far", 1000, 10, 20, "#ffffff", "#000000", 0, 8⟩

/-- C4: the claim that the preview path and the final render path use the
same layout formula is false. With the same label, the same scale 1, and the
same linear text measurement for both paths (width = ascent+descent total =
font size, so the two paths agree on the text footprint), the preview-path
bounds (`getLabelBounds`, no clamp) and the final-render bounds
(`drawLabel`'s rectangle, clamped) differ: for a label at `x = 1000` on a
100×100 surface the preview places the box at `left = 992` while the final
render clamps it to `left = 56`. -/
theorem preview_and_render_layout_diverge :
    getLabelBounds linearMetrics farRightLabel 1
        ≠ drawLabelBounds (fun f _ => f) farRightLabel 100 100 ∧
    (getLabelBounds linearMetrics farRightLabel 1).left = 992 ∧
    (drawLabelBounds (fun f _ => f) farRightLabel 100 100).left = 56 := by
  refine ⟨?_, ?_, ?_⟩
  · intro h
    have hleft := congrArg LabelBounds.left h
    simp [getLabelBounds, drawLabelBounds, drawLabelClampedX, linearMetrics,
      farRightLabel] at hleft
    norm_num [min_def, max_def] at hleft
  · norm_num [getLabelBounds, linearMetrics, farRightLabel]
  · norm_num [drawLabelBounds, drawLabelClampedX, drawLabelClampedY, farRightLabel,
      min_def, max_def]

/-- A small label whose padded footprint fits comfortably inside a 100×100
surface, placed at the origin. -/
def originLabel : LabelConfig :=
  ⟨"o", 0, 0, 20, "#ffffff", "#000000", 0, 8⟩

/-- C5 counterexample: the claim that at scale 1 the returned bounds lie
fully within `[0, surfaceW] × [0, surfaceH]` whenever the label footprint
plus padding fits is false: a label at `(0, 0)` with padding 8 and text
width 20 on a 100×100 surface fits (`20 + 2*8 ≤ 100` in x, `20 + 2*8 ≤ 100`
in y), yet the returned `left` is `-8 < 0` (and `top` is `-8 < 0`): the
clamp constrains the text origin, and the padded background extends
`padding` past it. -/
theorem drawLabelBounds_escape_left_edge :
    (0 : ℚ) ≤ 100 - 20 - 2 * 8 ∧
    drawLabelBounds (fun _ _ => 20) originLabel 100 100
        = { left := -8, top := -8, right := 28, bottom := 28 } ∧
    (drawLabelBounds (fun _ _ => 20) originLabel 100 100).left < 0 := by
  refine ⟨by norm_num, ?_, ?_⟩ <;>
    norm_num [drawLabelBounds, drawLabelClampedX, drawLabelClampedY, originLabel,
      min_def, max_def, LabelBounds.ext_iff]

/-- C5 amended: at scale 1, for non-negative padding `p`, the background
rectangle returned by the layout lies within
`[-p, surfaceW] × [-p, surfaceH]` — its text origin is clamped inside the
surface but the padded box extends up to `p` past the left/top edge — when
the footprint plus `2p` fits in an axis; when it does not fit, the bounds in
that axis start at exactly `-p` and may exceed the far edge. -/
theorem drawLabelBounds_containment
    (measureW : ℚ → String → ℚ) (label : LabelConfig) (W H : ℚ)
    (hp : 0 ≤ label.padding) :
    (0 ≤ W - measureW label.fontSize label.text - 2 * label.padding →
      -label.padding ≤ (drawLabelBounds measureW label W H).left ∧
      (drawLabelBounds measureW label W H).right ≤ W) ∧
    (W - measureW label.fontSize label.text - 2 * label.padding < 0 →
      (drawLabelBounds measureW label W H).left = -label.padding) ∧
    (0 ≤ H - label.fontSize - 2 * label.padding →
      -label.padding ≤ (drawLabelBounds measureW label W H).top ∧
      (drawLabelBounds measureW label W H).bottom ≤ H) ∧
    (H - label.fontSize - 2 * label.padding < 0 →
      (drawLabelBounds measureW label W H).top = -label.padding) := by
  unfold drawLabelBounds drawLabelClampedX drawLabelClampedY
  set tw := measureW label.fontSize label.text with htw
  refine ⟨fun hfit => ⟨?_, ?_⟩, fun hdeg => ?_, fun hfit => ⟨?_, ?_⟩, fun hdeg => ?_⟩
  · have h0 : (0 : ℚ) ≤ max 0 (min label.x (W - tw - label.padding * 2)) := le_max_left _ _
    simp only
    linarith
  · have hub : max 0 (min label.x (W - tw - label.padding * 2))
        ≤ W - tw - label.padding * 2 := by
      apply max_le (by linarith) (min_le_right _ _)
    simp only
    linarith
  · have hmin : min label.x (W - tw - label.padding * 2) ≤ 0 := by
      calc min label.x (W - tw - label.padding * 2)
          ≤ W - tw - label.padding * 2 := min_le_right _ _
        _ ≤ 0 := by linarith
    simp only [max_eq_left hmin]
    ring
  · have h0 : (0 : ℚ) ≤ max 0 (min label.y (H - label.fontSize - label.padding * 2)) :=
      le_max_left _ _
    simp only
    linarith
  · have hub : max 0 (min label.y (H - label.fontSize - label.padding * 2))
        ≤ H - label.fontSize - label.padding * 2 := by
      apply max_le (by linarith) (min_le_right _ _)
    simp only
    linarith
  · have hmin : min label.y (H - label.fontSize - label.padding * 2) ≤ 0 := by
      calc min label.y (H - label.fontSize - label.padding * 2)
          ≤ H - label.fontSize - label.padding * 2 := min_le_right _ _
        _ ≤ 0 := by linarith
    simp only [max_eq_left hmin]
    ring

/-- Witness for `drawLabelBounds_containment`: the `originLabel` scenario is
non-degenerate in both axes, and the amended containment holds there:
`-8 ≤ left` and `right ≤ 100`. -/
theorem drawLabelBounds_containment_witness :
    (0 : ℚ) ≤ originLabel.padding ∧
    -originLabel.padding ≤ (drawLabelBounds (fun _ _ => 20) originLabel 100 100).left ∧
    (drawLabelBounds (fun _ _ => 20) originLabel 100 100).right ≤ 100 := by
  have h := drawLabelBounds_containment (fun _ _ => 20) originLabel 100 100
    (by norm_num [originLabel])
  exact ⟨by norm_num [originLabel], h.1 (by norm_num [originLabel])⟩

/-- C6: the claim that `compositeFrame` fills the label background at alpha
equal to `backgroundOpacity` — fully transparent at opacity 0 — is false on
the server: `drawLabel` never reads `backgroundOpacity` and never sets
`globalAlpha`, so for the client's default label (`backgroundOpacity = 0`)
the background rectangle is still drawn fully opaque (alpha 1). -/
theorem drawLabel_ignores_backgroundOpacity :
    clientLabel1Default.backgroundOpacity = 0 ∧
    drawLabel (fun _ _ => 40) clientLabel1Default 100 100
        = [DrawOp.fillRect 2 (-8) 56 106 "#000000" 1,
           DrawOp.fillText "before" 10 0 "#ffffff" 1] ∧
    (1 : ℚ) ≠ clientLabel1Default.backgroundOpacity := by
  refine ⟨rfl, ?_, by norm_num [clientLabel1Default]⟩
  norm_num [drawLabel, drawLabelClampedX, drawLabelClampedY, clientLabel1Default,
    min_def, max_def]

/-- The measured footprint of a piece of text (spec §4.1):
width, ascent height and descent height. -/
structure Footprint where
  width : ℚ
  ascentHeight : ℚ
  descentHeight : ℚ
  deriving DecidableEq

/-- Modelled from the spec: `measureLabelFootprint(text, fontSize, fontFace)`
(spec §4.1) has no implementation under `src/` — the code measures text
inline through the external canvas capability `ctx.measureText` (server
`drawLabel` line 43, client `getLabelBounds` line 81). The canvas
measurement is modelled per glyph: the width is the sum of the per-character
advances for the given face and size, and the ascent/descent heights are the
maxima of the per-glyph extents, so a text with no glyphs measures to zero. -/
def measureLabelFootprint (advance ascentOf descentOf : String → ℚ → Char → ℚ)
    (text : String) (fontSize : ℚ) (fontFace : String) : Footprint :=
  { width := (text.toList.map (advance fontFace fontSize)).sum
    ascentHeight := (text.toList.map (ascentOf fontFace fontSize)).foldr max 0
    descentHeight := (text.toList.map (descentOf fontFace fontSize)).foldr max 0 }

/-- C8: for every font size, font face and per-glyph measurement model,
measuring the footprint of the empty text string returns the zero-size
footprint (width 0, ascent height 0, descent height 0). -/
theorem measureLabelFootprint_empty_text_zero
    (advance ascentOf descentOf : String → ℚ → Char → ℚ)
    (fontSize : ℚ) (fontFace : String) :
    measureLabelFootprint advance ascentOf descentOf "" fontSize fontFace
      = { width := 0, ascentHeight := 0, descentHeight := 0 } := rfl

end BeforeAfterify
